import Mathlib

/-!
Shallow embedding of the appointment-booking chatbot backend
(`src/backend/server.js` against the store schema in `src/postgres/init.sql`).

Time is modelled as `Nat` milliseconds (JavaScript `Date.now()`).  The
relational store is modelled as explicit lists of rows; each HTTP handler
becomes a pure function from the store (plus the request data and the
nondeterministic inputs the real handler draws from its environment: clock
readings, the bcrypt salt, the external collaborator's reply) to a response
together with the updated store.
-/

/-- A bcrypt hash as produced by `bcrypt.hash(password, salt)`: the model
keeps the salt and the hashed password abstractly, so that
`bcryptCompare` can invert it exactly the way `bcrypt.compare` succeeds
precisely on the original password. -/
structure BcryptHash where
  salt : Nat
  hashed : String
deriving DecidableEq, Repr

/-- `bcrypt.hash(password, salt)` (server.js line 89). -/
def bcryptHash (password : String) (salt : Nat) : BcryptHash :=
  ⟨salt, password⟩

/-- `bcrypt.compare(password, hash)` (server.js line 125): true exactly when
`password` is the password the hash was derived from. -/
def bcryptCompare (password : String) (h : BcryptHash) : Bool :=
  h.hashed = password

/-- A signed JWT over payload type `P`, as produced by `jwt.sign(payload,
secret, expiresIn)`: the token carries its payload, the signing secret and
the absolute expiry instant. `jwt.verify` recovers the payload exactly when
the secrets agree and the token is not yet expired. -/
structure Jwt (P : Type) where
  payload : P
  secret : String
  exp : Nat
deriving DecidableEq, Repr

/-- `jwt.sign(payload, secret, expiresIn)`: `exp` is the absolute expiry. -/
def jwtSign {P : Type} (payload : P) (secret : String) (exp : Nat) : Jwt P :=
  ⟨payload, secret, exp⟩

/-- `jwt.verify(token, secret)` at wall-clock instant `now` (server.js
line 55): yields the payload when the secret matches and the token has not
expired, and an error (`none`) otherwise. -/
def jwtVerify {P : Type} (t : Jwt P) (secret : String) (now : Nat) : Option P :=
  if t.secret = secret ∧ now < t.exp then some t.payload else none

/-- Claims of the identity token issued by login (server.js lines 131-135). -/
structure IdentityClaims where
  id : Nat
  email : String
deriving DecidableEq, Repr

/-- Claims of the short-lived chatbot access token (server.js lines 153-157). -/
structure ChatClaims where
  userId : Nat
  type : String
deriving DecidableEq, Repr

/-- Claims of the session token (server.js lines 160-164); `sessionId` is the
`Date.now()` reading at issuance. -/
structure SessionClaims where
  userId : Nat
  sessionId : Nat
deriving DecidableEq, Repr

/-- The session-token type: `session_token` column values are the session
JWTs issued by `GET /api/chatbot/token`. -/
abbrev SessTok := Jwt SessionClaims

/-- A row of the `users` table (init.sql). -/
structure User where
  id : Nat
  email : String
  password_hash : BcryptHash
  first_name : String
  last_name : String
deriving DecidableEq, Repr

/-- Role tag of a transcript entry (server.js lines 243-244). -/
inductive Role where
  | user
  | assistant
deriving DecidableEq, Repr

/-- One entry of a session's conversation log. -/
structure TranscriptEntry where
  role : Role
  content : String
  timestamp : Nat
deriving DecidableEq, Repr

/-- A row of the `chat_sessions` table (init.sql). -/
structure ChatSession where
  id : Nat
  user_id : Nat
  session_token : SessTok
  conversation_log : List TranscriptEntry
  created_at : Nat
  updated_at : Nat
  expires_at : Nat
deriving DecidableEq, Repr

/-- Public user projection returned by register and login: by construction it
has no password-hash field. -/
structure PublicUser where
  id : Nat
  email : String
  first_name : String
  last_name : String
deriving DecidableEq, Repr

/-- Fresh `SERIAL` id for an insert into `users`. -/
def freshUserId (users : List User) : Nat :=
  users.foldr (fun u m => max u.id m) 0 + 1

/-- Fresh `SERIAL` id for an insert into `chat_sessions`. -/
def freshSessionId (store : List ChatSession) : Nat :=
  store.foldr (fun s m => max s.id m) 0 + 1

/-- Split a character list at every occurrence of the separator `c`;
the resulting segments never contain `c`. -/
def splitOnChar (c : Char) : List Char → List (List Char)
  | [] => [[]]
  | x :: xs =>
    match splitOnChar c xs with
    | [] => if x = c then [[], []] else [[x]]
    | y :: ys => if x = c then [] :: y :: ys else (x :: y) :: ys

/-- Email-shape test modelling Joi's `Joi.string().email()` validator
(server.js line 39): one `@` separating a non-empty local part from a
domain of at least two non-empty dot-separated labels. -/
def isEmailShape (s : String) : Bool :=
  match splitOnChar '@' s.data with
  | [l, d] =>
      !l.isEmpty && !d.isEmpty &&
      (let parts := splitOnChar '.' d
       decide (2 ≤ parts.length) && parts.all (fun p => !p.isEmpty))
  | _ => false

/-- Request body of `POST /api/auth/register`; a missing string field is the
empty string. -/
structure RegisterInput where
  email : String
  password : String
  first_name : String
  last_name : String
deriving DecidableEq, Repr

/-- `userSchema.validate(req.body)` (server.js lines 38-43, 74): Joi checks
the keys in schema order and aborts at the first failure, producing that
failure's message (`error.details[0].message`); `none` means the input
passed validation. -/
def userSchemaValidate (i : RegisterInput) : Option String :=
  if ¬ isEmailShape i.email then
    some "\"email\" must be a valid email"
  else if i.password.length < 6 then
    some "\"password\" length must be at least 6 characters long"
  else if i.first_name = "" then
    some "\"first_name\" is not allowed to be empty"
  else if i.last_name = "" then
    some "\"last_name\" is not allowed to be empty"
  else
    none

/-- Response of `POST /api/auth/register`. -/
inductive RegisterResponse where
  | validationError (error : String)
  | conflict (error : String)
  | created (message : String) (user : PublicUser)
deriving DecidableEq, Repr

/-- HTTP status of a register response. -/
def RegisterResponse.status : RegisterResponse → Nat
  | .validationError _ => 400
  | .conflict _ => 409
  | .created _ _ => 201

/-- Result of a register call: the response plus the users table after it. -/
structure RegisterResult where
  response : RegisterResponse
  users : List User
deriving DecidableEq, Repr

/-- `POST /api/auth/register` handler (server.js lines 72-105).  `salt` is
the random salt drawn by `bcrypt.genSalt(10)`. -/
def register (users : List User) (i : RegisterInput) (salt : Nat) : RegisterResult :=
  match userSchemaValidate i with
  | some msg => ⟨.validationError msg, users⟩
  | none =>
    if users.any (fun u => u.email = i.email) then
      ⟨.conflict "User already exists", users⟩
    else
      let u : User :=
        ⟨freshUserId users, i.email, bcryptHash i.password salt, i.first_name, i.last_name⟩
      ⟨.created "User registered successfully" ⟨u.id, u.email, u.first_name, u.last_name⟩,
        users ++ [u]⟩

/-- Response of `POST /api/auth/login`. -/
inductive LoginResponse where
  | badRequest (error : String)
  | unauthorized (error : String)
  | ok (token : Jwt IdentityClaims) (user : PublicUser)
deriving DecidableEq, Repr

/-- HTTP status of a login response. -/
def LoginResponse.status : LoginResponse → Nat
  | .badRequest _ => 400
  | .unauthorized _ => 401
  | .ok _ _ => 200

/-- `POST /api/auth/login` handler (server.js lines 107-145); `now` is the
clock reading at token signing, the identity token lives 24 hours. -/
def login (users : List User) (email password secret : String) (now : Nat) :
    LoginResponse :=
  if email = "" || password = "" then
    .badRequest "Email and password required"
  else
    match users.find? (fun u => u.email = email) with
    | none => .unauthorized "Invalid credentials"
    | some user =>
      if bcryptCompare password user.password_hash then
        .ok (jwtSign ⟨user.id, user.email⟩ secret (now + 86400000))
          ⟨user.id, user.email, user.first_name, user.last_name⟩
      else
        .unauthorized "Invalid credentials"

/-- Result of `GET /api/chatbot/token`: the two issued tokens and the
chat-sessions table after the write. -/
structure IssueResult where
  chatToken : Jwt ChatClaims
  sessionToken : SessTok
  store : List ChatSession
deriving DecidableEq, Repr

/-- The store's `INSERT INTO chat_sessions ... ON CONFLICT (session_token)
DO UPDATE SET updated_at = NOW()` statement (server.js lines 169-172): if a
row with the same session token exists, only its updated-at timestamp is
refreshed; otherwise the row is appended. -/
def upsertSession (store : List ChatSession) (row : ChatSession) (now : Nat) :
    List ChatSession :=
  if store.any (fun s => s.session_token = row.session_token) then
    store.map (fun s =>
      if s.session_token = row.session_token then { s with updated_at := now } else s)
  else
    store ++ [row]

/-- `GET /api/chatbot/token` handler body after the authentication gate
(server.js lines 148-184).  `now` is the `Date.now()` reading; the chat
token lives 15 minutes (900000 ms), the session token and the row's
`expires_at` 24 hours (86400000 ms). -/
def issueToken (store : List ChatSession) (userId : Nat) (secret : String)
    (now : Nat) : IssueResult :=
  let chatToken := jwtSign (ChatClaims.mk userId "chatbot") secret (now + 900000)
  let sessionToken := jwtSign (SessionClaims.mk userId now) secret (now + 86400000)
  let row : ChatSession :=
    ⟨freshSessionId store, userId, sessionToken, [], now, now, now + 86400000⟩
  ⟨chatToken, sessionToken, upsertSession store row now⟩

/-- Payload the proxy forwards to the external NLP collaborator
(server.js lines 219-223). -/
structure PyRequest where
  message : String
  user_id : Nat
  session_token : SessTok
deriving DecidableEq, Repr

/-- Reply payload of the external NLP collaborator. -/
structure PyResponse where
  response : String
  action : Option String
  appointment_details : Option String
deriving DecidableEq, Repr

/-- Response of `POST /api/chatbot/message`. -/
inductive MessageResponse where
  | badRequest (error : String)
  | serviceError (error : String)
  | ok (data : PyResponse)
deriving DecidableEq, Repr

/-- HTTP status of a message response. -/
def MessageResponse.status : MessageResponse → Nat
  | .badRequest _ => 400
  | .serviceError _ => 500
  | .ok _ => 200

/-- The successive clock readings a message request draws: `tQuery` is the
store's `NOW()` in the session lookup, `tUser` and `tAsst` the two
`new Date()` readings stamped on the appended entries. -/
structure MsgTimes where
  tQuery : Nat
  tUser : Nat
  tAsst : Nat
deriving DecidableEq, Repr

/-- Result of a message call: the response, the payload forwarded to the
collaborator (if the call got that far), and the chat-sessions table after
the call. -/
structure SendResult where
  response : MessageResponse
  forwarded : Option PyRequest
  store : List ChatSession
deriving DecidableEq, Repr

/-- `POST /api/chatbot/message` handler body after the authentication gate
(server.js lines 187-261).  `uid` is the authenticated caller's user id
(`req.user.id`); `sessionToken` is `none` when the body lacks the field
(the handler's falsy test also fires on an empty message).  `collab` is the
outcome of the `axios.post` to the collaborator: an error message on
network failure, non-2xx or timeout, or the reply payload on success. -/
def sendMessage (store : List ChatSession) (uid : Nat) (message : String)
    (sessionToken : Option SessTok) (collab : Except String PyResponse)
    (ts : MsgTimes) : SendResult :=
  match sessionToken with
  | none => ⟨.badRequest "Message and session token required", none, store⟩
  | some tok =>
    if message = "" then
      ⟨.badRequest "Message and session token required", none, store⟩
    else
      match store.filter (fun s => s.session_token = tok && ts.tQuery < s.expires_at) with
      | [] => ⟨.badRequest "Invalid or expired session", none, store⟩
      | session :: _ =>
        let pyReq : PyRequest := ⟨message, uid, tok⟩
        match collab with
        | .error e =>
          ⟨.serviceError ("Python service error: " ++ e), some pyReq, store⟩
        | .ok data =>
          let updatedLog := session.conversation_log ++
            [⟨Role.user, message, ts.tUser⟩, ⟨Role.assistant, data.response, ts.tAsst⟩]
          ⟨.ok data, some pyReq,
            store.map (fun s =>
              if s.session_token = tok then { s with conversation_log := updatedLog }
              else s)⟩

/-- The chat-sessions table is well-formed when no two rows share a session
token (the `UNIQUE` constraint on `session_token` in init.sql). -/
def TokensUnique (store : List ChatSession) : Prop :=
  store.Pairwise (fun a b => a.session_token ≠ b.session_token)

/-- C3: verifying either token issued by the Session Service for user `u`
with the same signing secret, while the token is still live, recovers
exactly `u`'s user id (sign-then-verify round-trip). -/
theorem issueToken_verify_roundtrip (store : List ChatSession) (u : Nat)
    (secret : String) (issuedAt now : Nat)
    (hchat : now < issuedAt + 900000) (hsess : now < issuedAt + 86400000) :
    jwtVerify (issueToken store u secret issuedAt).chatToken secret now =
      some ⟨u, "chatbot"⟩ ∧
    jwtVerify (issueToken store u secret issuedAt).sessionToken secret now =
      some ⟨u, issuedAt⟩ := by
  constructor <;> simp [issueToken, jwtSign, jwtVerify, hchat, hsess]

theorem issueToken_verify_roundtrip_witness :
    jwtVerify (issueToken [] 7 "s" 0).chatToken "s" 10 = some ⟨7, "chatbot"⟩ ∧
    jwtVerify (issueToken [] 7 "s" 0).sessionToken "s" 10 = some ⟨7, 0⟩ :=
  issueToken_verify_roundtrip [] 7 "s" 0 10 (by decide) (by decide)

/-- C4: login with a known email and wrong password, and login with an
unregistered email, produce the same observable failure: status 401 with
error "Invalid credentials"; no field distinguishes the two runs. -/
theorem login_failure_indistinguishable (users₁ users₂ : List User)
    (email password secret : String) (now : Nat) (u : User)
    (he : email ≠ "") (hp : password ≠ "")
    (hfind : users₁.find? (fun x => x.email = email) = some u)
    (hwrong : bcryptCompare password u.password_hash = false)
    (habsent : ∀ x ∈ users₂, x.email ≠ email) :
    login users₁ email password secret now = .unauthorized "Invalid credentials" ∧
    login users₂ email password secret now = .unauthorized "Invalid credentials" ∧
    (login users₁ email password secret now).status = 401 ∧
    login users₁ email password secret now = login users₂ email password secret now := by
  have h2 : users₂.find? (fun x => x.email = email) = none := by
    rw [List.find?_eq_none]
    intro x hx
    simpa using habsent x hx
  refine ⟨?_, ?_, ?_, ?_⟩ <;>
    simp [login, he, hp, hfind, h2, hwrong, LoginResponse.status]

theorem login_failure_indistinguishable_witness :
    login [⟨1, "a@b.co", bcryptHash "hunter2" 3, "A", "B"⟩] "a@b.co" "wrong" "s" 0 =
      .unauthorized "Invalid credentials" ∧
    login [] "a@b.co" "wrong" "s" 0 = .unauthorized "Invalid credentials" ∧
    (login [⟨1, "a@b.co", bcryptHash "hunter2" 3, "A", "B"⟩] "a@b.co" "wrong" "s" 0).status = 401 ∧
    login [⟨1, "a@b.co", bcryptHash "hunter2" 3, "A", "B"⟩] "a@b.co" "wrong" "s" 0 =
      login [] "a@b.co" "wrong" "s" 0 :=
  login_failure_indistinguishable
    [⟨1, "a@b.co", bcryptHash "hunter2" 3, "A", "B"⟩] [] "a@b.co" "wrong" "s" 0
    ⟨1, "a@b.co", bcryptHash "hunter2" 3, "A", "B"⟩
    (by decide) (by decide) (by decide) (by decide) (by decide)

/-- C5: for a register call whose input passes validation, a duplicate email
yields a 409 conflict with the users table unchanged; otherwise the user is
persisted with a salted hash of the password and a 201 response carries the
public projection (id, email, first name, last name — the projection type
has no hash field). -/
theorem register_conflict_or_create (users : List User) (i : RegisterInput)
    (salt : Nat) (hvalid : userSchemaValidate i = none) :
    ((∃ u ∈ users, u.email = i.email) →
      register users i salt = ⟨.conflict "User already exists", users⟩ ∧
      (register users i salt).response.status = 409) ∧
    ((∀ u ∈ users, u.email ≠ i.email) →
      register users i salt =
        ⟨.created "User registered successfully"
            ⟨freshUserId users, i.email, i.first_name, i.last_name⟩,
          users ++ [⟨freshUserId users, i.email, bcryptHash i.password salt,
            i.first_name, i.last_name⟩]⟩ ∧
      (register users i salt).response.status = 201) := by
  constructor
  · rintro ⟨u, hu, he⟩
    have hAny : users.any (fun u => u.email = i.email) = true :=
      List.any_eq_true.mpr ⟨u, hu, by simp [he]⟩
    constructor <;> simp [register, hvalid, hAny, RegisterResponse.status]
  · intro h
    have hAny : users.any (fun u => u.email = i.email) = false := by
      rw [List.any_eq_false]
      intro u hu
      simpa using h u hu
    constructor <;> simp [register, hvalid, hAny, RegisterResponse.status]

theorem register_conflict_or_create_witness :
    register [] ⟨"a@b.co", "secret1", "Alice", "A"⟩ 5 =
      ⟨.created "User registered successfully" ⟨1, "a@b.co", "Alice", "A"⟩,
        [⟨1, "a@b.co", bcryptHash "secret1" 5, "Alice", "A"⟩]⟩ ∧
    (register [] ⟨"a@b.co", "secret1", "Alice", "A"⟩ 5).response.status = 201 :=
  (register_conflict_or_create [] ⟨"a@b.co", "secret1", "Alice", "A"⟩ 5 (by decide)).2
    (by simp)

/-- An upsert whose token is not yet present appends the row. -/
theorem upsertSession_not_present (store : List ChatSession) (row : ChatSession)
    (now : Nat) (h : ∀ s ∈ store, s.session_token ≠ row.session_token) :
    upsertSession store row now = store ++ [row] := by
  have hAny : store.any (fun s => s.session_token = row.session_token) = false := by
    rw [List.any_eq_false]
    intro s hs
    simpa using h s hs
  unfold upsertSession
  rw [hAny]
  simp

/-- An upsert whose token collides with an existing row refreshes only that
row's updated-at timestamp. -/
theorem upsertSession_present (store : List ChatSession) (row : ChatSession)
    (now : Nat) (h : ∃ s ∈ store, s.session_token = row.session_token) :
    upsertSession store row now =
      store.map (fun s =>
        if s.session_token = row.session_token then { s with updated_at := now }
        else s) := by
  obtain ⟨s, hs, he⟩ := h
  have hAny : store.any (fun x => x.session_token = row.session_token) = true :=
    List.any_eq_true.mpr ⟨s, hs, by simp [he]⟩
  unfold upsertSession
  rw [hAny]
  simp

/-- C6: a token-issuance call performs exactly one store write: when the
generated session token is not yet present it appends one row with an empty
transcript and an explicit expiry 24 hours after issuance; when the token
collides with an existing row it only refreshes that row's updated-at
timestamp, leaving every other field and row untouched. -/
theorem issueToken_single_write (store : List ChatSession) (u : Nat)
    (secret : String) (now : Nat) :
    ((∀ s ∈ store, s.session_token ≠ (issueToken store u secret now).sessionToken) →
      (issueToken store u secret now).store =
        store ++ [⟨freshSessionId store, u,
          (issueToken store u secret now).sessionToken, [], now, now,
          now + 86400000⟩]) ∧
    ((∃ s ∈ store, s.session_token = (issueToken store u secret now).sessionToken) →
      (issueToken store u secret now).store =
        store.map (fun s =>
          if s.session_token = (issueToken store u secret now).sessionToken then
            { s with updated_at := now }
          else s)) := by
  constructor
  · intro h
    exact upsertSession_not_present store
      ⟨freshSessionId store, u, jwtSign (SessionClaims.mk u now) secret (now + 86400000),
        [], now, now, now + 86400000⟩ now h
  · intro h
    exact upsertSession_present store
      ⟨freshSessionId store, u, jwtSign (SessionClaims.mk u now) secret (now + 86400000),
        [], now, now, now + 86400000⟩ now h

theorem issueToken_single_write_witness :
    (issueToken [] 7 "s" 0).store =
      [⟨1, 7, jwtSign (SessionClaims.mk 7 0) "s" 86400000, [], 0, 0, 86400000⟩] :=
  (issueToken_single_write [] 7 "s" 0).1 (by simp)

/-- C7: when the session is valid but the external collaborator call fails,
the message handler returns a 500 service error and the chat-sessions table
is unchanged (no retry, no partial write). -/
theorem sendMessage_collaborator_failure (store : List ChatSession) (uid : Nat)
    (msg : String) (tok : SessTok) (e : String) (ts : MsgTimes) (s : ChatSession)
    (hm : msg ≠ "") (hs : s ∈ store) (htok : s.session_token = tok)
    (hq : ts.tQuery < s.expires_at) :
    (sendMessage store uid msg (some tok) (.error e) ts).response =
      .serviceError ("Python service error: " ++ e) ∧
    (sendMessage store uid msg (some tok) (.error e) ts).response.status = 500 ∧
    (sendMessage store uid msg (some tok) (.error e) ts).store = store := by
  have hmemf : s ∈ store.filter
      (fun x => x.session_token = tok && ts.tQuery < x.expires_at) :=
    List.mem_filter.mpr ⟨hs, by simp [htok, hq]⟩
  cases hf : store.filter (fun x => x.session_token = tok && ts.tQuery < x.expires_at) with
  | nil =>
    rw [hf] at hmemf
    exact absurd hmemf (List.not_mem_nil s)
  | cons session rest =>
    refine ⟨?_, ?_, ?_⟩ <;> simp [sendMessage, hm, hf, MessageResponse.status]

theorem sendMessage_collaborator_failure_witness :
    (sendMessage [⟨1, 1, jwtSign (SessionClaims.mk 1 0) "s" 86400000, [], 0, 0, 86400000⟩]
        1 "hello" (some (jwtSign (SessionClaims.mk 1 0) "s" 86400000))
        (.error "timeout of 30000ms exceeded") ⟨10, 11, 12⟩).response =
      .serviceError ("Python service error: " ++ "timeout of 30000ms exceeded") ∧
    (sendMessage [⟨1, 1, jwtSign (SessionClaims.mk 1 0) "s" 86400000, [], 0, 0, 86400000⟩]
        1 "hello" (some (jwtSign (SessionClaims.mk 1 0) "s" 86400000))
        (.error "timeout of 30000ms exceeded") ⟨10, 11, 12⟩).response.status = 500 ∧
    (sendMessage [⟨1, 1, jwtSign (SessionClaims.mk 1 0) "s" 86400000, [], 0, 0, 86400000⟩]
        1 "hello" (some (jwtSign (SessionClaims.mk 1 0) "s" 86400000))
        (.error "timeout of 30000ms exceeded") ⟨10, 11, 12⟩).store =
      [⟨1, 1, jwtSign (SessionClaims.mk 1 0) "s" 86400000, [], 0, 0, 86400000⟩] :=
  sendMessage_collaborator_failure
    [⟨1, 1, jwtSign (SessionClaims.mk 1 0) "s" 86400000, [], 0, 0, 86400000⟩]
    1 "hello" (jwtSign (SessionClaims.mk 1 0) "s" 86400000)
    "timeout of 30000ms exceeded" ⟨10, 11, 12⟩
    ⟨1, 1, jwtSign (SessionClaims.mk 1 0) "s" 86400000, [], 0, 0, 86400000⟩
    (by decide) (by simp) rfl (by decide)

/-- C8: register accepts an input exactly when the email has a valid shape,
the password has length at least 6 and both names are non-empty; any input
violating this is rejected with a 400 validation error and the users table
is unchanged. -/
theorem register_validation (users : List User) (i : RegisterInput) (salt : Nat) :
    (userSchemaValidate i = none ↔
      (isEmailShape i.email = true ∧ 6 ≤ i.password.length ∧
        i.first_name ≠ "" ∧ i.last_name ≠ "")) ∧
    (∀ msg, userSchemaValidate i = some msg →
      register users i salt = ⟨.validationError msg, users⟩ ∧
      (register users i salt).response.status = 400) := by
  constructor
  · unfold userSchemaValidate
    split_ifs with h1 h2 h3 h4 <;> simp_all
  · intro msg hmsg
    constructor <;> simp [register, hmsg, RegisterResponse.status]

theorem register_validation_witness :
    (userSchemaValidate ⟨"not-an-email", "secret1", "A", "B"⟩ = none ↔
      (isEmailShape "not-an-email" = true ∧ 6 ≤ ("secret1" : String).length ∧
        ("A" : String) ≠ "" ∧ ("B" : String) ≠ "")) ∧
    (∀ msg, userSchemaValidate ⟨"not-an-email", "secret1", "A", "B"⟩ = some msg →
      register [] ⟨"not-an-email", "secret1", "A", "B"⟩ 5 =
        ⟨.validationError msg, []⟩ ∧
      (register [] ⟨"not-an-email", "secret1", "A", "B"⟩ 5).response.status = 400) :=
  register_validation [] ⟨"not-an-email", "secret1", "A", "B"⟩ 5

/-- C1: a message send with a non-empty message and a session token that
matches no row still valid at query time — whether the token never existed
or its row has expired — returns the single 400 error "Invalid or expired
session" with the store unchanged; both cases yield the identical result. -/
theorem sendMessage_invalid_or_expired (store : List ChatSession) (uid : Nat)
    (msg : String) (tok : SessTok) (collab : Except String PyResponse)
    (ts : MsgTimes) (hm : msg ≠ "")
    (hexp : ∀ s ∈ store, s.session_token = tok → s.expires_at ≤ ts.tQuery) :
    sendMessage store uid msg (some tok) collab ts =
      ⟨.badRequest "Invalid or expired session", none, store⟩ ∧
    (MessageResponse.badRequest "Invalid or expired session").status = 400 := by
  have hf : store.filter
      (fun s => s.session_token = tok && ts.tQuery < s.expires_at) = [] := by
    rw [List.filter_eq_nil_iff]
    intro s hs
    simp only [Bool.and_eq_true, decide_eq_true_eq, not_and]
    intro he
    have := hexp s hs he
    omega
  constructor
  · simp [sendMessage, hm, hf]
  · rfl

theorem sendMessage_invalid_or_expired_witness :
    sendMessage [⟨1, 1, jwtSign (SessionClaims.mk 1 0) "s" 5, [], 0, 0, 5⟩]
        1 "hello" (some (jwtSign (SessionClaims.mk 1 0) "s" 5))
        (.ok ⟨"hi", none, none⟩) ⟨10, 10, 10⟩ =
      ⟨.badRequest "Invalid or expired session", none,
        [⟨1, 1, jwtSign (SessionClaims.mk 1 0) "s" 5, [], 0, 0, 5⟩]⟩ ∧
    (MessageResponse.badRequest "Invalid or expired session").status = 400 :=
  sendMessage_invalid_or_expired
    [⟨1, 1, jwtSign (SessionClaims.mk 1 0) "s" 5, [], 0, 0, 5⟩]
    1 "hello" (jwtSign (SessionClaims.mk 1 0) "s" 5)
    (.ok ⟨"hi", none, none⟩) ⟨10, 10, 10⟩ (by decide) (by decide)

/-- In a store whose session tokens are pairwise distinct, two member rows
with the same token are the same row. -/
theorem token_unique_mem_eq (store : List ChatSession)
    (hu : TokensUnique store) (a b : ChatSession)
    (ha : a ∈ store) (hb : b ∈ store)
    (h : a.session_token = b.session_token) : a = b := by
  induction store with
  | nil => cases ha
  | cons x l ih =>
    obtain ⟨hx, hl⟩ := List.pairwise_cons.mp hu
    rcases List.mem_cons.mp ha with rfl | ha' <;>
      rcases List.mem_cons.mp hb with rfl | hb'
    · rfl
    · exact absurd h (hx b hb')
    · exact absurd h.symm (hx a ha')
    · exact ih hl ha' hb'

/-- In a store whose session tokens are pairwise distinct, the session lookup
of the message handler returns exactly the one still-valid row carrying the
token. -/
theorem filter_token_unique (store : List ChatSession) (tok : SessTok)
    (q : Nat) (s : ChatSession) (hu : TokensUnique store) (hs : s ∈ store)
    (htok : s.session_token = tok) (hq : q < s.expires_at) :
    store.filter (fun x => x.session_token = tok && q < x.expires_at) = [s] := by
  induction store with
  | nil => cases hs
  | cons x l ih =>
    obtain ⟨hx, hl⟩ := List.pairwise_cons.mp hu
    rcases List.mem_cons.mp hs with rfl | hs'
    · have hnil : l.filter (fun x => x.session_token = tok && q < x.expires_at) = [] := by
        rw [List.filter_eq_nil_iff]
        intro b hb
        simp only [Bool.and_eq_true, decide_eq_true_eq, not_and]
        intro hbtok
        exact absurd (htok.trans hbtok.symm) (hx b hb)
      rw [List.filter_cons_of_pos (by simp [htok, hq]), hnil]
    · have hxf : (x.session_token = tok && decide (q < x.expires_at)) = false := by
        simp only [Bool.and_eq_false_iff]
        left
        simp only [decide_eq_false_iff_not]
        intro hxe
        exact hx s hs' (hxe.trans htok.symm)
      rw [List.filter_cons_of_neg (by simp [hxf]), ih hl hs']

/-- C2: a successful message send against a valid session extends that
session's stored transcript by exactly two entries in order — a user entry
carrying the request message, then an assistant entry carrying the
collaborator's reply — each stamped no earlier than the request's query
instant, and returns the collaborator's payload. -/
theorem sendMessage_appends_two_entries (store : List ChatSession) (uid : Nat)
    (msg : String) (tok : SessTok) (data : PyResponse) (ts : MsgTimes)
    (s : ChatSession) (hu : TokensUnique store) (hs : s ∈ store)
    (htok : s.session_token = tok) (hq : ts.tQuery < s.expires_at)
    (hm : msg ≠ "") (h1 : ts.tQuery ≤ ts.tUser) (h2 : ts.tUser ≤ ts.tAsst) :
    (sendMessage store uid msg (some tok) (.ok data) ts).response = .ok data ∧
    (∀ s' ∈ (sendMessage store uid msg (some tok) (.ok data) ts).store,
      s'.session_token = tok →
        s'.conversation_log = s.conversation_log ++
          [⟨Role.user, msg, ts.tUser⟩, ⟨Role.assistant, data.response, ts.tAsst⟩]) ∧
    ts.tQuery ≤ ts.tUser ∧ ts.tQuery ≤ ts.tAsst := by
  have hf := filter_token_unique store tok ts.tQuery s hu hs htok hq
  refine ⟨by simp [sendMessage, hm, hf], ?_, h1, le_trans h1 h2⟩
  intro s' hmem htk
  have hstore : (sendMessage store uid msg (some tok) (.ok data) ts).store =
      store.map (fun x =>
        if x.session_token = tok then
          { x with conversation_log := s.conversation_log ++
              [⟨Role.user, msg, ts.tUser⟩,
               ⟨Role.assistant, data.response, ts.tAsst⟩] }
        else x) := by
    simp [sendMessage, hm, hf]
  rw [hstore] at hmem
  obtain ⟨a, ha, rfl⟩ := List.mem_map.mp hmem
  by_cases hc : a.session_token = tok
  · simp [hc]
  · rw [if_neg hc] at htk ⊢
    exact absurd htk hc

theorem sendMessage_appends_two_entries_witness :
    (sendMessage [⟨1, 1, jwtSign (SessionClaims.mk 1 0) "s" 86400000,
        [⟨Role.user, "old", 1⟩], 0, 0, 86400000⟩]
      2 "hello" (some (jwtSign (SessionClaims.mk 1 0) "s" 86400000))
      (.ok ⟨"hi there", none, none⟩) ⟨10, 11, 12⟩).response =
        .ok ⟨"hi there", none, none⟩ ∧
    (∀ s' ∈ (sendMessage [⟨1, 1, jwtSign (SessionClaims.mk 1 0) "s" 86400000,
        [⟨Role.user, "old", 1⟩], 0, 0, 86400000⟩]
      2 "hello" (some (jwtSign (SessionClaims.mk 1 0) "s" 86400000))
      (.ok ⟨"hi there", none, none⟩) ⟨10, 11, 12⟩).store,
      s'.session_token = jwtSign (SessionClaims.mk 1 0) "s" 86400000 →
        s'.conversation_log = [⟨Role.user, "old", 1⟩] ++
          [⟨Role.user, "hello", 11⟩, ⟨Role.assistant, "hi there", 12⟩]) ∧
    (10 : Nat) ≤ 11 ∧ (10 : Nat) ≤ 12 :=
  sendMessage_appends_two_entries
    [⟨1, 1, jwtSign (SessionClaims.mk 1 0) "s" 86400000, [⟨Role.user, "old", 1⟩], 0, 0, 86400000⟩]
    2 "hello" (jwtSign (SessionClaims.mk 1 0) "s" 86400000) ⟨"hi there", none, none⟩
    ⟨10, 11, 12⟩
    ⟨1, 1, jwtSign (SessionClaims.mk 1 0) "s" 86400000, [⟨Role.user, "old", 1⟩], 0, 0, 86400000⟩
    (by simp [TokensUnique]) (by simp) rfl (by decide) (by decide) (by decide) (by decide)

/-- C9: the message handler looks up the session by token alone and never
compares the row's user id with the caller's: the response and the
resulting store of a message send are identical whichever authenticated
user presents the token (only the user id forwarded to the collaborator
differs), so any authenticated user can exercise another user's session. -/
theorem sendMessage_user_independent (store : List ChatSession) (uid₁ uid₂ : Nat)
    (msg : String) (tok : Option SessTok) (collab : Except String PyResponse)
    (ts : MsgTimes) :
    (sendMessage store uid₁ msg tok collab ts).response =
      (sendMessage store uid₂ msg tok collab ts).response ∧
    (sendMessage store uid₁ msg tok collab ts).store =
      (sendMessage store uid₂ msg tok collab ts).store := by
  rcases tok with _ | t
  · exact ⟨rfl, rfl⟩
  · by_cases hm : msg = ""
    · simp [sendMessage, hm]
    · cases hf : store.filter (fun s => s.session_token = t && ts.tQuery < s.expires_at) with
      | nil => simp [sendMessage, hm, hf]
      | cons session rest =>
        rcases collab with e | d <;> simp [sendMessage, hm, hf]

/-- C10: a successful message send leaves the store's row count unchanged and
touches no field other than `conversation_log`: every row keeps its id,
user id, session token, creation and update timestamps and expiry (so
sending messages never extends a session's validity window or refreshes its
updated-at), and rows whose token differs from the given one are unchanged
entirely. -/
theorem sendMessage_frame (store : List ChatSession) (uid : Nat) (msg : String)
    (tok : SessTok) (data : PyResponse) (ts : MsgTimes) (s : ChatSession)
    (hm : msg ≠ "") (hs : s ∈ store) (htok : s.session_token = tok)
    (hq : ts.tQuery < s.expires_at) :
    (sendMessage store uid msg (some tok) (.ok data) ts).store.length = store.length ∧
    ∀ (i : Nat) (h1 : i < store.length)
      (h2 : i < (sendMessage store uid msg (some tok) (.ok data) ts).store.length),
      ((sendMessage store uid msg (some tok) (.ok data) ts).store.get ⟨i, h2⟩).id =
          (store.get ⟨i, h1⟩).id ∧
      ((sendMessage store uid msg (some tok) (.ok data) ts).store.get ⟨i, h2⟩).user_id =
          (store.get ⟨i, h1⟩).user_id ∧
      ((sendMessage store uid msg (some tok) (.ok data) ts).store.get ⟨i, h2⟩).session_token =
          (store.get ⟨i, h1⟩).session_token ∧
      ((sendMessage store uid msg (some tok) (.ok data) ts).store.get ⟨i, h2⟩).created_at =
          (store.get ⟨i, h1⟩).created_at ∧
      ((sendMessage store uid msg (some tok) (.ok data) ts).store.get ⟨i, h2⟩).updated_at =
          (store.get ⟨i, h1⟩).updated_at ∧
      ((sendMessage store uid msg (some tok) (.ok data) ts).store.get ⟨i, h2⟩).expires_at =
          (store.get ⟨i, h1⟩).expires_at ∧
      ((store.get ⟨i, h1⟩).session_token ≠ tok →
        (sendMessage store uid msg (some tok) (.ok data) ts).store.get ⟨i, h2⟩ =
          store.get ⟨i, h1⟩) := by
  have hmemf : s ∈ store.filter
      (fun x => x.session_token = tok && ts.tQuery < x.expires_at) :=
    List.mem_filter.mpr ⟨hs, by simp [htok, hq]⟩
  cases hf : store.filter (fun x => x.session_token = tok && ts.tQuery < x.expires_at) with
  | nil =>
    rw [hf] at hmemf
    exact absurd hmemf (List.not_mem_nil s)
  | cons session rest =>
    have hstore : (sendMessage store uid msg (some tok) (.ok data) ts).store =
        store.map (fun x =>
          if x.session_token = tok then
            { x with conversation_log := session.conversation_log ++
                [⟨Role.user, msg, ts.tUser⟩,
                 ⟨Role.assistant, data.response, ts.tAsst⟩] }
          else x) := by
      simp [sendMessage, hm, hf]
    rw [hstore]
    refine ⟨by simp, ?_⟩
    intro i h1 h2
    have hmg : (store.map (fun x =>
        if x.session_token = tok then
          { x with conversation_log := session.conversation_log ++
              [⟨Role.user, msg, ts.tUser⟩,
               ⟨Role.assistant, data.response, ts.tAsst⟩] }
        else x)).get ⟨i, h2⟩ =
        (fun x =>
          if x.session_token = tok then
            { x with conversation_log := session.conversation_log ++
                [⟨Role.user, msg, ts.tUser⟩,
                 ⟨Role.assistant, data.response, ts.tAsst⟩] }
          else x) (store.get ⟨i, h1⟩) := by
      simp [List.get_eq_getElem, List.getElem_map]
    rw [hmg]
    by_cases hc : (store.get ⟨i, h1⟩).session_token = tok <;>
      simp only [List.get_eq_getElem] at hc <;> simp [hc]

theorem sendMessage_frame_witness :
    (sendMessage [⟨1, 1, jwtSign (SessionClaims.mk 1 0) "s" 86400000, [], 0, 0, 86400000⟩]
      1 "hello" (some (jwtSign (SessionClaims.mk 1 0) "s" 86400000))
      (.ok ⟨"hi", none, none⟩) ⟨10, 11, 12⟩).store.length =
    [(⟨1, 1, jwtSign (SessionClaims.mk 1 0) "s" 86400000, [], 0, 0, 86400000⟩ : ChatSession)].length :=
  (sendMessage_frame
    [⟨1, 1, jwtSign (SessionClaims.mk 1 0) "s" 86400000, [], 0, 0, 86400000⟩]
    1 "hello" (jwtSign (SessionClaims.mk 1 0) "s" 86400000) ⟨"hi", none, none⟩
    ⟨10, 11, 12⟩
    ⟨1, 1, jwtSign (SessionClaims.mk 1 0) "s" 86400000, [], 0, 0, 86400000⟩
    (by decide) (by simp) rfl (by decide)).1
